import Mathlib

/-!
Shallow embedding of the ride_easy ride-request lifecycle.

Sources embedded:
- src/unnamed/part_000 (Express backend): GET /api/ride-requests,
  POST /api/ride-requests/:id/accept, POST /api/ride-requests/:id/complete.
- src/_app.js handleRequestRide (rider client): geolocation acquisition and
  the setDoc write creating a pending ride request keyed by the rider id.

Modelling conventions:
- The Firestore rideRequests collection is an association list from document
  id (the rider's userId) to the record; setDoc fully replaces the document
  at a key, update merges fields into the existing document.
- Server timestamps and Date values are modelled as an explicit Nat passed
  to each operation.
- Geographic coordinates are only stored and copied, never computed with,
  so they are modelled as Int.
- JSON request-body string fields are Option String; JavaScript truthiness
  of such a field (absent or empty string is falsy) is jsFalsy.
- HTTP responses are modelled as the resulting store paired with the HTTP
  status code the handler sends.
-/

/-- Ride-request status enum as stored in Firestore. -/
inductive Status where
  | pending
  | accepted
  | completed
deriving DecidableEq, Repr

/-- One rideRequests document. Fields written by src/_app.js setDoc plus the
fields merged in by the accept and complete handlers; fields not yet written
are none. -/
structure RideRequest where
  riderId : String
  pickupLocation : String
  pickupLatitude : Int
  pickupLongitude : Int
  destination : String
  status : Status
  timestamp : Nat
  riderEmail : String
  driverId : Option String
  driverName : Option String
  driverVehicle : Option String
  acceptedAt : Option Nat
  completedAt : Option Nat
deriving DecidableEq, Repr

/-- The rideRequests collection: document id (rider userId) to document. -/
abbrev Store := List (String × RideRequest)

namespace Store

/-- Firestore point lookup: doc(id).get. -/
def get (s : Store) (k : String) : Option RideRequest :=
  (s.find? (fun p => p.1 == k)).map Prod.snd

/-- Firestore setDoc: inserts or fully replaces the document at key k. -/
def put (s : Store) (k : String) (r : RideRequest) : Store :=
  (k, r) :: s.filter (fun p => p.1 != k)

/-- Firestore update on an existing document at key k: merges fields by
applying f to the stored record. The handlers call it only after checking
the document exists. -/
def updateWith (s : Store) (k : String) (f : RideRequest → RideRequest) : Store :=
  s.map (fun p => if p.1 == k then (p.1, f p.2) else p)

end Store

/-- JavaScript truthiness test used by the accept handler on the three
request-body driver fields: a field is falsy when absent or the empty
string. -/
def jsFalsy : Option String → Bool
  | none => true
  | some v => v == ""

/-- JavaScript x || d on an optional string: d when x is absent or empty. -/
def jsOr (x : Option String) (d : String) : String :=
  match x with
  | none => d
  | some v => if v == "" then d else v

/-- The document written by handleRequestRide in src/_app.js: status pending,
current coordinates, placeholder destination, profile email defaulted to
N/A, and no driver or transition fields. -/
def mkRideRequestDoc (userId : String) (profileEmail : Option String)
    (lat lng : Int) (now : Nat) : RideRequest :=
  { riderId := userId
  , pickupLocation := "Lat: " ++ toString lat ++ ", Lng: " ++ toString lng
  , pickupLatitude := lat
  , pickupLongitude := lng
  , destination := "Destination (Placeholder)"
  , status := Status.pending
  , timestamp := now
  , riderEmail := jsOr profileEmail "N/A"
  , driverId := none
  , driverName := none
  , driverVehicle := none
  , acceptedAt := none
  , completedAt := none }

/-- The storage effect of handleRequestRide (src/_app.js line 310): setDoc at
the rider's userId, fully replacing any prior document. -/
def requestRide (s : Store) (userId : String) (profileEmail : Option String)
    (lat lng : Int) (now : Nat) : Store :=
  s.put userId (mkRideRequestDoc userId profileEmail lat lng now)

/-- POST /api/ride-requests/:id/accept (src/unnamed/part_000 lines 77-108):
400 when any driver field is falsy, 404 when the document is absent,
otherwise an unconditional update setting status accepted, the three driver
fields and acceptedAt. Returns the resulting store and HTTP status. -/
def acceptRide (s : Store) (rideRequestId : String)
    (driverId driverName driverVehicle : Option String) (now : Nat) :
    Store × Nat :=
  if jsFalsy driverId || jsFalsy driverName || jsFalsy driverVehicle then
    (s, 400)
  else
    match s.get rideRequestId with
    | none => (s, 404)
    | some _ =>
      (s.updateWith rideRequestId (fun r =>
        { r with
          status := Status.accepted
          driverId := some (driverId.getD "")
          driverName := some (driverName.getD "")
          driverVehicle := some (driverVehicle.getD "")
          acceptedAt := some now }), 200)

/-- POST /api/ride-requests/:id/complete (src/unnamed/part_000 lines
112-135): 404 when the document is absent, otherwise an unconditional update
setting status completed and completedAt. -/
def completeRide (s : Store) (rideRequestId : String) (now : Nat) :
    Store × Nat :=
  match s.get rideRequestId with
  | none => (s, 404)
  | some _ =>
    (s.updateWith rideRequestId (fun r =>
      { r with status := Status.completed, completedAt := some now }), 200)

/-- GET /api/ride-requests (src/unnamed/part_000 lines 47-73): queries the
documents whose status is pending and returns each as its document id paired
with its data, with HTTP status 200 (also when the set is empty). -/
def listPendingHandler (s : Store) : Nat × List (String × RideRequest) :=
  (200, s.filter (fun p => p.2.status == Status.pending))

/-- One client operation against the shared store, as issued by the rider UI
handler or one of the two POST handlers. -/
inductive Op where
  | request (userId : String) (profileEmail : Option String)
      (lat lng : Int) (now : Nat)
  | accept (rideRequestId : String)
      (driverId driverName driverVehicle : Option String) (now : Nat)
  | complete (rideRequestId : String) (now : Nat)

/-- Storage effect of a single operation. -/
def applyOp (s : Store) : Op → Store
  | Op.request u e lat lng now => requestRide s u e lat lng now
  | Op.accept id a b c now => (acceptRide s id a b c now).1
  | Op.complete id now => (completeRide s id now).1

/-- Storage effect of a sequence of operations. -/
def runOps (s : Store) (ops : List Op) : Store :=
  ops.foldl applyOp s

/-- Outcome of the browser geolocation acquisition inside handleRequestRide:
the browser may lack navigator.geolocation, getCurrentPosition may report
one of its three error codes, or a position is delivered. -/
inductive GeoOutcome where
  | unsupported
  | permissionDenied
  | positionUnavailable
  | timedOut
  | position (lat lng : Int)

/-- Snackbar severity values used by the dashboard component. -/
inductive Severity where
  | info
  | success
  | warning
  | error
deriving DecidableEq, Repr

/-- Final snackbar state shown by handleRequestRide. -/
structure Snackbar where
  message : String
  severity : Severity
deriving Repr

/-- Message text chosen for a getCurrentPosition error
(src/_app.js lines 330-343). -/
def geoErrorMessage : GeoOutcome → String
  | GeoOutcome.permissionDenied =>
      "Location access denied. Please enable location services for this app."
  | GeoOutcome.positionUnavailable => "Location information is unavailable."
  | GeoOutcome.timedOut => "The request to get user location timed out."
  | _ => "Unable to retrieve your location."

/-- handleRequestRide (src/_app.js lines 286-351): requires db and a logged
in user, then acquires geolocation; only when a position is delivered does
it write the pending ride-request document, otherwise the store is
untouched and an error snackbar is shown. Returns the resulting store and
the final snackbar state. -/
def handleRequestRide (hasDbAndUser : Bool) (userId : String)
    (profileEmail : Option String) (geo : GeoOutcome) (s : Store)
    (now : Nat) : Store × Snackbar :=
  if !hasDbAndUser then
    (s, ⟨"Please log in to request a ride.", Severity.error⟩)
  else
    match geo with
    | GeoOutcome.position lat lng =>
        (requestRide s userId profileEmail lat lng now,
         ⟨"Ride requested successfully! Drivers have been alerted.",
          Severity.success⟩)
    | GeoOutcome.unsupported =>
        (s, ⟨"Geolocation is not supported by your browser.", Severity.error⟩)
    | e => (s, ⟨"Geolocation error: " ++ geoErrorMessage e, Severity.error⟩)

/-- Sample pending document used to instantiate concrete scenarios. -/
def sampleDoc : RideRequest := mkRideRequestDoc "r" (some "a@x") 40 (-73) 0

/-- Store holding exactly the sample pending request. -/
def sampleStore : Store := requestRide [] "r" (some "a@x") 40 (-73) 0

/-- Store after driver d1 accepts the sample request. -/
def sampleAccepted : Store :=
  (acceptRide sampleStore "r" (some "d1") (some "Alice") (some "Civic") 1).1

/-- The sample document after driver d1 accepted it. -/
def sampleAcceptedDoc : RideRequest :=
  { sampleDoc with
    status := Status.accepted
    driverId := some "d1"
    driverName := some "Alice"
    driverVehicle := some "Civic"
    acceptedAt := some 1 }

/-- Invariant: every stored record whose status is pending carries no driver
fields and no acceptedAt. -/
def PendingNoDriver (s : Store) : Prop :=
  ∀ p ∈ s, p.2.status = Status.pending →
    p.2.driverId = none ∧ p.2.driverName = none ∧
    p.2.driverVehicle = none ∧ p.2.acceptedAt = none

/-!  Helper lemmas about the store primitives. -/

theorem Store.get_put_self (s : Store) (k : String) (r : RideRequest) :
    (s.put k r).get k = some r := by
  simp [Store.get, Store.put, List.find?]

theorem Store.get_cons (q : String × RideRequest) (t : Store) (k : String) :
    Store.get (q :: t) k = if q.1 == k then some q.2 else Store.get t k := by
  cases h : q.1 == k <;> simp [Store.get, List.find?, h]

theorem Store.updateWith_cons (q : String × RideRequest) (t : Store)
    (k : String) (f : RideRequest → RideRequest) :
    Store.updateWith (q :: t) k f =
      (if q.1 == k then (q.1, f q.2) else q) :: Store.updateWith t k f := by
  by_cases h : q.1 = k <;> simp [Store.updateWith, h]

theorem Store.get_updateWith_self (s : Store) (k : String)
    (f : RideRequest → RideRequest) :
    (s.updateWith k f).get k = (s.get k).map f := by
  induction s with
  | nil => rfl
  | cons q t ih =>
    rw [Store.updateWith_cons, Store.get_cons, Store.get_cons]
    by_cases h : q.1 = k
    · simp [h]
    · have hb : (q.1 == k) = false := by simpa using h
      simp [hb, ih]

theorem Store.get_updateWith_ne (s : Store) (k k2 : String)
    (f : RideRequest → RideRequest) (h : k2 ≠ k) :
    (s.updateWith k f).get k2 = s.get k2 := by
  induction s with
  | nil => rfl
  | cons q t ih =>
    rw [Store.updateWith_cons, Store.get_cons, Store.get_cons]
    by_cases hp : q.1 = k
    · have hb : (q.1 == k2) = false := by
        subst hp
        simpa using fun he => absurd he.symm h
      simp [hp, hb, ih, Ne.symm h]
    · have hb : (q.1 == k) = false := by simpa using hp
      by_cases hq : q.1 = k2
      · simp [hb, hq, h]
      · have hb2 : (q.1 == k2) = false := by simpa using hq
        simp [hb, hb2, ih]

theorem Store.mem_of_get_eq_some (s : Store) (k : String) (r : RideRequest)
    (h : s.get k = some r) : ∃ p ∈ s, p.2 = r := by
  unfold Store.get at h
  cases hf : s.find? (fun p => p.1 == k) with
  | none => rw [hf] at h; simp at h
  | some p =>
    rw [hf] at h
    simp at h
    exact ⟨p, List.mem_of_find?_eq_some hf, h⟩

/-- The store an accept call leaves behind: unchanged on the 400 and 404
paths, an unconditional merge on the 200 path. -/
theorem acceptRide_store_cases (s : Store) (id : String)
    (a b c : Option String) (now : Nat) :
    (acceptRide s id a b c now).1 = s ∨
    (acceptRide s id a b c now).1 = s.updateWith id (fun r =>
      { r with
        status := Status.accepted
        driverId := some (a.getD "")
        driverName := some (b.getD "")
        driverVehicle := some (c.getD "")
        acceptedAt := some now }) := by
  unfold acceptRide
  by_cases h : (jsFalsy a || jsFalsy b || jsFalsy c) = true
  · left; simp [h]
  · cases hget : s.get id with
    | none => left; simp [h, hget]
    | some r => right; simp [h, hget]

/-- The store a complete call leaves behind: unchanged on the 404 path, an
unconditional merge on the 200 path. -/
theorem completeRide_store_cases (s : Store) (id : String) (now : Nat) :
    (completeRide s id now).1 = s ∨
    (completeRide s id now).1 = s.updateWith id (fun r =>
      { r with status := Status.completed, completedAt := some now }) := by
  unfold completeRide
  cases hget : s.get id with
  | none => left; simp [hget]
  | some r => right; simp [hget]

theorem pendingNoDriver_put (s : Store) (k : String) (r : RideRequest)
    (hs : PendingNoDriver s)
    (hr : r.driverId = none ∧ r.driverName = none ∧
          r.driverVehicle = none ∧ r.acceptedAt = none) :
    PendingNoDriver (s.put k r) := by
  intro p hp hst
  rcases List.mem_cons.mp hp with h | h
  · rw [h]; exact hr
  · exact hs p (List.mem_of_mem_filter h) hst

theorem pendingNoDriver_updateWith (s : Store) (k : String)
    (f : RideRequest → RideRequest)
    (hf : ∀ r, (f r).status ≠ Status.pending)
    (hs : PendingNoDriver s) : PendingNoDriver (s.updateWith k f) := by
  intro p hp hst
  rcases List.mem_map.mp hp with ⟨q, hq, hpq⟩
  by_cases h : q.1 = k
  · rw [← hpq] at hst
    simp [h] at hst
    exact absurd hst (hf q.2)
  · have hb : (q.1 == k) = false := by simpa using h
    rw [← hpq]
    simp only [hb, if_neg Bool.false_ne_true]
    exact hs q hq (by rw [← hpq] at hst; simpa [hb] using hst)

theorem pendingNoDriver_applyOp (s : Store) (o : Op)
    (hs : PendingNoDriver s) : PendingNoDriver (applyOp s o) := by
  cases o with
  | request u e lat lng now =>
    exact pendingNoDriver_put s u _ hs (by simp [mkRideRequestDoc])
  | accept id a b c now =>
    show PendingNoDriver (acceptRide s id a b c now).1
    rcases acceptRide_store_cases s id a b c now with h | h
    · rw [h]; exact hs
    · rw [h]
      exact pendingNoDriver_updateWith s id _ (by intro r; simp) hs
  | complete id now =>
    show PendingNoDriver (completeRide s id now).1
    rcases completeRide_store_cases s id now with h | h
    · rw [h]; exact hs
    · rw [h]
      exact pendingNoDriver_updateWith s id _ (by intro r; simp) hs

theorem pendingNoDriver_runOps (s : Store) (ops : List Op)
    (hs : PendingNoDriver s) : PendingNoDriver (runOps s ops) := by
  induction ops generalizing s with
  | nil => exact hs
  | cons o t ih => exact ih (applyOp s o) (pendingNoDriver_applyOp s o hs)


/-!  Claim theorems. -/

/-- C1: the claim says the status only ever moves along pending, accepted,
completed, with pending to completed directly disallowed and no regression.
The complete handler updates unconditionally, so a pending record jumps
straight to completed with HTTP 200, and the accept handler then moves that
completed record back to accepted with HTTP 200: the code permits both
disallowed transitions. -/
theorem completeRide_direct_from_pending_bug :
    (Store.get sampleStore "r").map (fun r => r.status) = some Status.pending ∧
    (completeRide sampleStore "r" 1).2 = 200 ∧
    ((completeRide sampleStore "r" 1).1.get "r").map (fun r => r.status) =
      some Status.completed ∧
    (acceptRide (completeRide sampleStore "r" 1).1 "r"
      (some "d1") (some "Alice") (some "Civic") 2).2 = 200 ∧
    ((acceptRide (completeRide sampleStore "r" 1).1 "r"
      (some "d1") (some "Alice") (some "Civic") 2).1.get "r").map
        (fun r => r.status) = some Status.accepted := by
  decide

/-- C2: the claim says that of two acceptRide calls racing on a pending
record exactly one succeeds and the other fails with Conflict. The accept
handler never checks the current status, so both calls return HTTP 200 and
the second driver's fields silently overwrite the first driver's claim; no
Conflict response exists in the code. -/
theorem double_accept_both_succeed_bug :
    (acceptRide sampleStore "r" (some "d1") (some "Alice") (some "Civic") 1).2
      = 200 ∧
    (acceptRide sampleAccepted "r" (some "d2") (some "Bob") (some "Tesla") 2).2
      = 200 ∧
    ((acceptRide sampleAccepted "r" (some "d2") (some "Bob") (some "Tesla") 2).1.get
      "r").map (fun r => r.driverId) = some (some "d2") ∧
    ((acceptRide sampleAccepted "r" (some "d2") (some "Bob") (some "Tesla") 2).1.get
      "r").map (fun r => r.status) = some Status.accepted := by
  decide

/-- C3 counterexample: after driver d1 has accepted the sample request the
record carries driverId d1, yet a further acceptRide by driver d2 changes
driverId to d2 — the driver fields are not immutable once status is
accepted, refuting the claim as stated. -/
theorem accept_overwrites_driver_fields_counterexample :
    (Store.get sampleAccepted "r").map (fun r => r.status) =
      some Status.accepted ∧
    (Store.get sampleAccepted "r").map (fun r => r.driverId) =
      some (some "d1") ∧
    ((acceptRide sampleAccepted "r" (some "d2") (some "Bob") (some "Tesla") 2).1.get
      "r").map (fun r => r.driverId) = some (some "d2") := by
  decide

/-- C3 (amended): in every store reachable by requestRide, acceptRide and
completeRide from the empty store, a record with status pending has no
driverId, driverName, driverVehicle or acceptedAt; and completeRide never
changes or removes those four fields of any record. (A further acceptRide
may overwrite them and a requestRide on the same key removes them, so they
are not immutable after acceptance.) -/
theorem driver_fields_absent_while_pending_and_complete_preserves :
    (∀ ops : List Op, ∀ k : String, ∀ r : RideRequest,
        (runOps [] ops).get k = some r → r.status = Status.pending →
        r.driverId = none ∧ r.driverName = none ∧
        r.driverVehicle = none ∧ r.acceptedAt = none) ∧
    (∀ s : Store, ∀ id k : String, ∀ now : Nat, ∀ r r2 : RideRequest,
        s.get k = some r → (completeRide s id now).1.get k = some r2 →
        r2.driverId = r.driverId ∧ r2.driverName = r.driverName ∧
        r2.driverVehicle = r.driverVehicle ∧ r2.acceptedAt = r.acceptedAt) := by
  constructor
  · intro ops k r hget hst
    have hinv : PendingNoDriver (runOps [] ops) :=
      pendingNoDriver_runOps [] ops (by intro p hp; simp at hp)
    rcases Store.mem_of_get_eq_some _ _ _ hget with ⟨p, hp, hpr⟩
    have := hinv p hp (by rw [hpr]; exact hst)
    rw [hpr] at this
    exact this
  · intro s id k now r r2 hget hget2
    cases hgid : s.get id with
    | none =>
      rw [completeRide, hgid] at hget2
      rw [hget] at hget2
      cases hget2
      exact ⟨rfl, rfl, rfl, rfl⟩
    | some r0 =>
      rw [completeRide, hgid] at hget2
      by_cases hk : k = id
      · subst hk
        rw [Store.get_updateWith_self, hget] at hget2
        cases hget2
        exact ⟨rfl, rfl, rfl, rfl⟩
      · rw [Store.get_updateWith_ne s id k _ hk, hget] at hget2
        cases hget2
        exact ⟨rfl, rfl, rfl, rfl⟩

/-- C3 witness: the freshly requested sample document is pending and indeed
carries none of the four driver fields. -/
theorem driver_fields_absent_witness :
    sampleDoc.driverId = none ∧ sampleDoc.driverName = none ∧
    sampleDoc.driverVehicle = none ∧ sampleDoc.acceptedAt = none :=
  driver_fields_absent_while_pending_and_complete_preserves.1
    [Op.request "r" (some "a@x") 40 (-73) 0] "r" sampleDoc
    (by decide) (by decide)

/-- C4: requestRide always succeeds at the storage layer: whatever record
was previously at the rider's key, a subsequent get returns the fresh
record with status pending, the submitted coordinates, placeholder
destination, defaulted email, and no driver fields, acceptedAt or
completedAt. -/
theorem requestRide_get_returns_fresh_pending (s : Store) (u : String)
    (e : Option String) (lat lng : Int) (now : Nat) :
    (requestRide s u e lat lng now).get u = some
      { riderId := u
      , pickupLocation := "Lat: " ++ toString lat ++ ", Lng: " ++ toString lng
      , pickupLatitude := lat
      , pickupLongitude := lng
      , destination := "Destination (Placeholder)"
      , status := Status.pending
      , timestamp := now
      , riderEmail := jsOr e "N/A"
      , driverId := none
      , driverName := none
      , driverVehicle := none
      , acceptedAt := none
      , completedAt := none } :=
  Store.get_put_self s u (mkRideRequestDoc u e lat lng now)

/-- C5: the listing returns exactly the pending records: every returned
record has status pending, and every stored record with status pending
appears in the returned sequence. -/
theorem listPending_exactly_pending (s : Store) :
    (∀ p ∈ (listPendingHandler s).2, p.2.status = Status.pending) ∧
    (∀ p ∈ s, p.2.status = Status.pending → p ∈ (listPendingHandler s).2) := by
  constructor
  · intro p hp
    rw [listPendingHandler] at hp
    have := List.of_mem_filter hp
    simpa using this
  · intro p hp hst
    rw [listPendingHandler]
    exact List.mem_filter.mpr ⟨hp, by simpa using hst⟩

/-- C5 witness: a store holding one pending record lists it. -/
theorem listPending_exactly_pending_witness :
    ("r", sampleDoc) ∈ (listPendingHandler [("r", sampleDoc)]).2 :=
  (listPending_exactly_pending [("r", sampleDoc)]).2 ("r", sampleDoc)
    (by simp) (by decide)

/-- C6: acceptRide with any of the three driver fields absent or empty
returns HTTP 400 and leaves the store unchanged, for every store and every
id, whether or not a record exists there. -/
theorem acceptRide_missing_driver_field_400 (s : Store) (id : String)
    (a b c : Option String) (now : Nat)
    (h : jsFalsy a = true ∨ jsFalsy b = true ∨ jsFalsy c = true) :
    acceptRide s id a b c now = (s, 400) := by
  unfold acceptRide
  rcases h with h | h | h <;> simp [h]

/-- C6 witness: a missing driverId is rejected with 400 on the empty store. -/
theorem acceptRide_missing_driver_field_400_witness :
    acceptRide [] "x" none (some "Alice") (some "Civic") 0 = ([], 400) :=
  acceptRide_missing_driver_field_400 [] "x" none (some "Alice") (some "Civic")
    0 (Or.inl (by decide))

/-- C7: on an id holding no record, acceptRide with all three driver fields
present returns HTTP 404 and completeRide returns HTTP 404, both leaving the
store unchanged. -/
theorem accept_complete_on_missing_id_404 (s : Store) (id : String)
    (a b c : Option String) (now now2 : Nat)
    (hget : s.get id = none)
    (ha : jsFalsy a = false) (hb : jsFalsy b = false) (hc : jsFalsy c = false) :
    acceptRide s id a b c now = (s, 404) ∧
    completeRide s id now2 = (s, 404) := by
  constructor
  · unfold acceptRide
    simp [ha, hb, hc, hget]
  · unfold completeRide
    simp [hget]

/-- C7 witness: both operations 404 on the empty store. -/
theorem accept_complete_on_missing_id_404_witness :
    acceptRide [] "x" (some "d1") (some "Alice") (some "Civic") 0
      = ([], 404) ∧
    completeRide [] "x" 1 = ([], 404) :=
  accept_complete_on_missing_id_404 [] "x" (some "d1") (some "Alice")
    (some "Civic") 0 1 (by decide) (by decide) (by decide) (by decide)

/-- C8: on an existing record, completeRide returns HTTP 200, the record
afterwards equals the prior record with only status set to completed and
completedAt set to now — every other field, in particular the driver
fields, pickup coordinates, destination, riderEmail and timestamp, is
unchanged — and records at every other key are untouched. -/
theorem completeRide_sets_completed_preserves_rest (s : Store) (id : String)
    (now : Nat) (r : RideRequest) (hget : s.get id = some r) :
    (completeRide s id now).2 = 200 ∧
    (completeRide s id now).1.get id =
      some { r with status := Status.completed, completedAt := some now } ∧
    ∀ k, k ≠ id → (completeRide s id now).1.get k = s.get k := by
  refine ⟨?_, ?_, ?_⟩
  · rw [completeRide, hget]
  · simp only [completeRide, hget]
    rw [Store.get_updateWith_self, hget]
    rfl
  · intro k hk
    simp only [completeRide, hget]
    exact Store.get_updateWith_ne s id k _ hk

/-- C8 witness: completing the accepted sample ride yields the accepted
document with status completed and completedAt 2, all driver fields kept. -/
theorem completeRide_sets_completed_preserves_rest_witness :
    (completeRide sampleAccepted "r" 2).1.get "r" =
      some { sampleAcceptedDoc with
             status := Status.completed, completedAt := some 2 } :=
  (completeRide_sets_completed_preserves_rest sampleAccepted "r" 2
    sampleAcceptedDoc (by decide)).2.1

/-- C9: every element the GET listing returns is a document id paired with
the record held under that id in the store, the HTTP status is always 200,
and when no record is pending the response is the empty array rather than
an error. -/
theorem listPending_response (s : Store) :
    (listPendingHandler s).1 = 200 ∧
    (∀ p ∈ (listPendingHandler s).2, p ∈ s) ∧
    ((∀ p ∈ s, p.2.status ≠ Status.pending) →
      (listPendingHandler s).2 = []) := by
  refine ⟨rfl, ?_, ?_⟩
  · intro p hp
    rw [listPendingHandler] at hp
    exact List.mem_of_mem_filter hp
  · intro h
    rw [listPendingHandler]
    refine List.filter_eq_nil_iff.mpr ?_
    intro p hp
    simpa using h p hp

/-- C9 witness: a store whose only record is accepted lists nothing, with
status 200. -/
theorem listPending_response_witness :
    (listPendingHandler [("r", sampleAcceptedDoc)]).2 = [] :=
  (listPending_response [("r", sampleAcceptedDoc)]).2.2 (by decide)

/-- C10: when geolocation is unsupported or getCurrentPosition fails with
permission denied, position unavailable or timeout, handleRequestRide leaves
the ride-request store completely unchanged and shows an error snackbar. -/
theorem geolocation_failure_no_write (u : String) (e : Option String)
    (s : Store) (now : Nat) (g : GeoOutcome)
    (h : g = GeoOutcome.unsupported ∨ g = GeoOutcome.permissionDenied ∨
         g = GeoOutcome.positionUnavailable ∨ g = GeoOutcome.timedOut) :
    (handleRequestRide true u e g s now).1 = s ∧
    (handleRequestRide true u e g s now).2.severity = Severity.error := by
  rcases h with rfl | rfl | rfl | rfl <;> exact ⟨rfl, rfl⟩

/-- C10 witness: with geolocation unsupported no write happens on the empty
store and the snackbar severity is error. -/
theorem geolocation_failure_no_write_witness :
    (handleRequestRide true "r" none GeoOutcome.unsupported [] 0).1 = [] ∧
    (handleRequestRide true "r" none GeoOutcome.unsupported [] 0).2.severity
      = Severity.error :=
  geolocation_failure_no_write "r" none [] 0 GeoOutcome.unsupported
    (Or.inl rfl)
